import Mathlib

set_option maxRecDepth 8000

/-!
Verification development for the essay-review tool (`app.py`).

The only algorithmic core is the click/wheel/drag zoom-pan viewport rendered
by `render_click_zoom`: a JavaScript component whose state lives in the
closure variables `scale`, `posX`, `posY`, `isPanning`, `startX`, `startY`,
`downX`, `downY`, `movedSinceDown`, `ignoreNextClick`.  We embed that state
machine shallowly: JavaScript numbers are modelled as rationals (ℚ) for the
scale and as integers (ℤ) for pixel coordinates; `toFixed(2)` is rounding to
the nearest hundredth with ties toward +∞, which is `round` on ℚ.  The
`setTimeout(..., 250)` callback that clears `ignoreNextClick` is modelled as
an explicit `timerExpire` event, and the CSS writes (`applyTransform`,
`setOriginFromEvent`) are presentation-only (they read but never change the
closure state), so they do not appear in the state.

The record store (`salvar_texto` over table `textos_digitados`) is modelled
as a list of rows with the UPDATE / rowcount / INSERT logic of the source.
-/

namespace CorrigeAI

/-- Mount-time configuration of `render_click_zoom`
(`height_px`, `step`, `max_scale`, `min_scale`). -/
structure CZConfig where
  heightPx : ℤ
  step : ℚ
  maxScale : ℚ
  minScale : ℚ
deriving DecidableEq

/-- The closure state of the zoom component:
`scale`, `posX`/`posY` (translate in px), `isPanning`, `startX`/`startY`,
`downX`/`downY`, `movedSinceDown`, `ignoreNextClick`. -/
structure CZState where
  scale : ℚ
  posX : ℤ
  posY : ℤ
  isPanning : Bool
  startX : ℤ
  startY : ℤ
  downX : ℤ
  downY : ℤ
  movedSinceDown : Bool
  ignoreNextClick : Bool
deriving DecidableEq

/-- `const DRAG_THRESHOLD = 5;` -/
def DRAG_THRESHOLD : ℤ := 5

/-- Initial closure state: `scale = min_scale`, everything else zero/false. -/
def initState (cfg : CZConfig) : CZState :=
  { scale := cfg.minScale
    posX := 0, posY := 0
    isPanning := false
    startX := 0, startY := 0
    downX := 0, downY := 0
    movedSinceDown := false
    ignoreNextClick := false }

/-- The script's clamp helper: Math.max(lo, Math.min(hi, v)). -/
def clamp (v lo hi : ℚ) : ℚ := max lo (min hi v)

/-- `parseFloat(x.toFixed(2))`: round to the nearest hundredth
(ECMAScript `toFixed` picks the larger candidate on ties, i.e. ties go
toward +∞, matching `round` on ℚ). -/
def round2 (q : ℚ) : ℚ := (round (100 * q) : ℤ) / 100

/-- `zoomBy(delta, e)`: clamp the rounded candidate scale into
`[minScale, maxScale]`; if the resulting scale is exactly `minScale`,
reset the pan offset to (0,0).  (`setOriginFromEvent` and `applyTransform`
only write CSS properties, never closure state.) -/
def zoomBy (cfg : CZConfig) (s : CZState) (delta : ℚ) : CZState :=
  if clamp (round2 (s.scale + delta)) cfg.minScale cfg.maxScale = cfg.minScale then
    { s with scale := clamp (round2 (s.scale + delta)) cfg.minScale cfg.maxScale,
             posX := 0, posY := 0 }
  else
    { s with scale := clamp (round2 (s.scale + delta)) cfg.minScale cfg.maxScale }

/-- Input events delivered to the component's handlers.  `timerExpire` is the
`setTimeout` callback armed in the mouseup/touchend handlers firing ~250ms
later. -/
inductive CZEvent where
  | click (button : ℤ) (detail : ℕ) (shiftKey : Bool)
  | wheel (deltaY : ℤ)
  | dblclick
  | mousedown (button : ℤ) (clientX clientY : ℤ)
  | mousemove (clientX clientY : ℤ)
  | mouseup
  | touchstart (clientX clientY : ℤ)
  | touchmove (clientX clientY : ℤ)
  | touchend
  | timerExpire
deriving DecidableEq

/-- Shared body of the mousemove / touchmove handlers: when panning, the
offset tracks the pointer, and `movedSinceDown` latches once the pointer is
more than `DRAG_THRESHOLD` px (per axis) from the pointer-down position. -/
def moveHandler (s : CZState) (cx cy : ℤ) : CZState :=
  if s.isPanning = false then s
  else if s.movedSinceDown = false ∧
      (DRAG_THRESHOLD < |cx - s.downX| ∨ DRAG_THRESHOLD < |cy - s.downY|) then
    { s with posX := cx - s.startX, posY := cy - s.startY, movedSinceDown := true }
  else
    { s with posX := cx - s.startX, posY := cy - s.startY }

/-- Shared body of the mouseup / touchend handlers: stop panning; if the
gesture crossed the drag threshold, arm `ignoreNextClick` (and a 250ms timer
to clear it, modelled by the `timerExpire` event). -/
def upHandler (s : CZState) : CZState :=
  if s.isPanning = false then s
  else if s.movedSinceDown then
    { s with isPanning := false, ignoreNextClick := true }
  else
    { s with isPanning := false }

/-- One event-handler dispatch of the zoom component, transcribed from the
script in `render_click_zoom`. -/
def czStep (cfg : CZConfig) (s : CZState) (e : CZEvent) : CZState :=
  match e with
  | .click button detail shiftKey =>
    if s.ignoreNextClick then { s with ignoreNextClick := false }
    else if 1 < detail then s
    else if button ≠ 0 then s
    else zoomBy cfg s (if shiftKey then -cfg.step else cfg.step)
  | .wheel deltaY =>
    zoomBy cfg s (if deltaY < 0 then cfg.step else -cfg.step)
  | .dblclick =>
    { s with scale := cfg.minScale, posX := 0, posY := 0 }
  | .mousedown button cx cy =>
    if button ≠ 0 then s
    else if s.scale ≤ cfg.minScale then s
    else
      { s with isPanning := true, movedSinceDown := false
               downX := cx, downY := cy
               startX := cx - s.posX, startY := cy - s.posY }
  | .mousemove cx cy => moveHandler s cx cy
  | .mouseup => upHandler s
  | .touchstart cx cy =>
    if s.scale ≤ cfg.minScale then s
    else
      { s with isPanning := true, movedSinceDown := false
               downX := cx, downY := cy
               startX := cx - s.posX, startY := cy - s.posY }
  | .touchmove cx cy => moveHandler s cx cy
  | .touchend => upHandler s
  | .timerExpire => { s with ignoreNextClick := false }

/-- Run a sequence of events through the component. -/
def czRun (cfg : CZConfig) (s : CZState) (es : List CZEvent) : CZState :=
  es.foldl (czStep cfg) s

/-- The configuration used at the call site:
`height_px=760, step=0.5, max_scale=4.0, min_scale=1.0`. -/
def siteConfig : CZConfig :=
  { heightPx := 760, step := 1/2, maxScale := 4, minScale := 1 }

/-- Error type named by the spec for mount-time validation failures. -/
inductive MountError where
  | invalidConfig
deriving DecidableEq

/-- What mounting produces: the height handed to `html(...)`
(`height_px + 6`) and the initial closure state. -/
structure MountResult where
  htmlHeight : ℤ
  state : CZState
deriving DecidableEq

/-- `render_click_zoom(image_url, height_px, step, max_scale, min_scale)`:
the Python function performs no validation of its arguments — it
unconditionally renders the HTML/JS component (with `height=height_px+6`)
whose script initialises the closure state. -/
def render_click_zoom (_image_url : String) (height_px : ℤ)
    (step max_scale min_scale : ℚ) : Except MountError MountResult :=
  .ok { htmlHeight := height_px + 6
        state := initState
          { heightPx := height_px, step := step
            maxScale := max_scale, minScale := min_scale } }

/-- A row of the `textos_digitados` table (the columns `salvar_texto`
touches). -/
structure Registro where
  redacao_id : ℤ
  texto_digitado : String
  status : ℤ
  arquivo_nome_armazenamento : String
deriving DecidableEq

/-- Effect of the UPDATE statement on one row: rows whose `redacao_id`
matches get the new text and `status = 1`. -/
def updRow (rid : ℤ) (txt : String) (r : Registro) : Registro :=
  if r.redacao_id = rid then { r with texto_digitado := txt, status := 1 }
  else r

/-- Python's `imagem_url or ""`: `None` (and the empty string) become `""`. -/
def pyOrEmpty : Option String → String
  | none => ""
  | some u => u

/-- `salvar_texto(engine, redacao_id, novo_texto, imagem_url)`: UPDATE the
matching rows (text + `status=1`); if the UPDATE touched no row
(`res.rowcount == 0`), INSERT `(rid, txt, 1, imagem_url or "")`. -/
def salvar_texto (db : List Registro) (rid : ℤ) (txt : String)
    (img : Option String) : List Registro :=
  if (db.filter (fun r => r.redacao_id = rid)).length = 0 then
    db.map (updRow rid txt) ++
      [{ redacao_id := rid, texto_digitado := txt, status := 1
         arquivo_nome_armazenamento := pyOrEmpty img }]
  else
    db.map (updRow rid txt)

/-- A rational is an integer number of hundredths, i.e. has at most two
decimal digits — the grid `toFixed(2)` snaps to. -/
def twoDecimal (q : ℚ) : Prop := ∃ k : ℤ, q = k / 100

/-- Event sequence reaching `scale = minScale` with a pan still in progress:
zoom in, press the mouse button (panning arms because scale > minScale),
wheel back down to `minScale` (offset is reset there), then keep dragging. -/
def c2trace : List CZEvent :=
  [CZEvent.click 0 1 false, CZEvent.mousedown 0 10 10,
   CZEvent.wheel 1, CZEvent.mousemove 30 30]

/-! ## Basic lemmas about the zoom component -/

lemma czRun_nil (cfg : CZConfig) (s : CZState) : czRun cfg s [] = s := rfl

lemma czRun_cons (cfg : CZConfig) (s : CZState) (e : CZEvent) (es : List CZEvent) :
    czRun cfg s (e :: es) = czRun cfg (czStep cfg s e) es := rfl

lemma czRun_append (cfg : CZConfig) (s : CZState) (l1 l2 : List CZEvent) :
    czRun cfg s (l1 ++ l2) = czRun cfg (czRun cfg s l1) l2 :=
  List.foldl_append ..

lemma le_clamp (v lo hi : ℚ) : lo ≤ clamp v lo hi := le_max_left ..

lemma clamp_le (v : ℚ) {lo hi : ℚ} (h : lo ≤ hi) : clamp v lo hi ≤ hi :=
  max_le h (min_le_left hi v)

lemma clamp_cases (v lo hi : ℚ) :
    clamp v lo hi = lo ∨ clamp v lo hi = hi ∨ clamp v lo hi = v := by
  unfold clamp
  rcases max_choice lo (min hi v) with h | h
  · exact Or.inl h
  · rcases min_choice hi v with h2 | h2
    · exact Or.inr (Or.inl (h.trans h2))
    · exact Or.inr (Or.inr (h.trans h2))

lemma clamp_eq_self {v lo hi : ℚ} (h1 : lo ≤ v) (h2 : v ≤ hi) : clamp v lo hi = v := by
  unfold clamp
  rw [min_eq_right h2, max_eq_right h1]

lemma zoomBy_scale (cfg : CZConfig) (s : CZState) (d : ℚ) :
    (zoomBy cfg s d).scale = clamp (round2 (s.scale + d)) cfg.minScale cfg.maxScale := by
  unfold zoomBy
  split_ifs <;> rfl

lemma zoomBy_ignore (cfg : CZConfig) (s : CZState) (d : ℚ) :
    (zoomBy cfg s d).ignoreNextClick = s.ignoreNextClick := by
  unfold zoomBy
  split_ifs <;> rfl

lemma zoomBy_min_reset (cfg : CZConfig) (s : CZState) (d : ℚ)
    (h : (zoomBy cfg s d).scale = cfg.minScale) :
    (zoomBy cfg s d).posX = 0 ∧ (zoomBy cfg s d).posY = 0 := by
  unfold zoomBy at h ⊢
  split_ifs at h ⊢ with hc
  · exact ⟨rfl, rfl⟩
  · exact absurd h hc

lemma moveHandler_scale (s : CZState) (cx cy : ℤ) : (moveHandler s cx cy).scale = s.scale := by
  unfold moveHandler
  split_ifs <;> rfl

lemma upHandler_scale (s : CZState) : (upHandler s).scale = s.scale := by
  unfold upHandler
  split_ifs <;> rfl

lemma czStep_click (cfg : CZConfig) (s : CZState) (b : ℤ) (d : ℕ) (k : Bool) :
    czStep cfg s (CZEvent.click b d k) =
      (if s.ignoreNextClick then { s with ignoreNextClick := false }
       else if 1 < d then s
       else if b ≠ 0 then s
       else zoomBy cfg s (if k then -cfg.step else cfg.step)) := rfl

lemma czStep_wheel (cfg : CZConfig) (s : CZState) (dY : ℤ) :
    czStep cfg s (CZEvent.wheel dY) =
      zoomBy cfg s (if dY < 0 then cfg.step else -cfg.step) := rfl

lemma czStep_dblclick (cfg : CZConfig) (s : CZState) :
    czStep cfg s CZEvent.dblclick =
      { s with scale := cfg.minScale, posX := 0, posY := 0 } := rfl

lemma czStep_mousedown (cfg : CZConfig) (s : CZState) (b cx cy : ℤ) :
    czStep cfg s (CZEvent.mousedown b cx cy) =
      (if b ≠ 0 then s
       else if s.scale ≤ cfg.minScale then s
       else
        { s with isPanning := true, movedSinceDown := false
                 downX := cx, downY := cy
                 startX := cx - s.posX, startY := cy - s.posY }) := rfl

lemma czStep_mousemove (cfg : CZConfig) (s : CZState) (cx cy : ℤ) :
    czStep cfg s (CZEvent.mousemove cx cy) = moveHandler s cx cy := rfl

lemma czStep_mouseup (cfg : CZConfig) (s : CZState) :
    czStep cfg s CZEvent.mouseup = upHandler s := rfl

lemma czStep_touchstart (cfg : CZConfig) (s : CZState) (cx cy : ℤ) :
    czStep cfg s (CZEvent.touchstart cx cy) =
      (if s.scale ≤ cfg.minScale then s
       else
        { s with isPanning := true, movedSinceDown := false
                 downX := cx, downY := cy
                 startX := cx - s.posX, startY := cy - s.posY }) := rfl

lemma czStep_touchmove (cfg : CZConfig) (s : CZState) (cx cy : ℤ) :
    czStep cfg s (CZEvent.touchmove cx cy) = moveHandler s cx cy := rfl

lemma czStep_touchend (cfg : CZConfig) (s : CZState) :
    czStep cfg s CZEvent.touchend = upHandler s := rfl

lemma czStep_timer (cfg : CZConfig) (s : CZState) :
    czStep cfg s CZEvent.timerExpire = { s with ignoreNextClick := false } := rfl

/-- Each handler dispatch leaves the scale untouched, resets it to `minScale`,
or routes it through the clamp-of-rounded-candidate of `zoomBy`. -/
lemma czStep_scale_cases (cfg : CZConfig) (s : CZState) (e : CZEvent) :
    (czStep cfg s e).scale = s.scale ∨ (czStep cfg s e).scale = cfg.minScale ∨
      ∃ d, (czStep cfg s e).scale = clamp (round2 (s.scale + d)) cfg.minScale cfg.maxScale := by
  cases e with
  | click b d k =>
    rw [czStep_click]
    split_ifs <;>
      first
      | exact Or.inl rfl
      | exact Or.inr (Or.inr ⟨_, zoomBy_scale ..⟩)
  | wheel dY =>
    rw [czStep_wheel]
    exact Or.inr (Or.inr ⟨_, zoomBy_scale ..⟩)
  | dblclick => exact Or.inr (Or.inl rfl)
  | mousedown b cx cy =>
    rw [czStep_mousedown]
    split_ifs <;> exact Or.inl rfl
  | mousemove cx cy => exact Or.inl (moveHandler_scale ..)
  | mouseup => exact Or.inl (upHandler_scale ..)
  | touchstart cx cy =>
    rw [czStep_touchstart]
    split_ifs <;> exact Or.inl rfl
  | touchmove cx cy => exact Or.inl (moveHandler_scale ..)
  | touchend => exact Or.inl (upHandler_scale ..)
  | timerExpire => exact Or.inl rfl

lemma czRun_scale_bounds (cfg : CZConfig) (h : cfg.minScale ≤ cfg.maxScale)
    (es : List CZEvent) :
    ∀ s : CZState, cfg.minScale ≤ s.scale → s.scale ≤ cfg.maxScale →
      cfg.minScale ≤ (czRun cfg s es).scale ∧ (czRun cfg s es).scale ≤ cfg.maxScale := by
  induction es with
  | nil => exact fun s h1 h2 => ⟨h1, h2⟩
  | cons e es ih =>
    intro s h1 h2
    rw [czRun_cons]
    have hstep : cfg.minScale ≤ (czStep cfg s e).scale ∧
        (czStep cfg s e).scale ≤ cfg.maxScale := by
      rcases czStep_scale_cases cfg s e with hc | hc | ⟨d, hc⟩
      · rw [hc]; exact ⟨h1, h2⟩
      · rw [hc]; exact ⟨le_refl _, h⟩
      · rw [hc]; exact ⟨le_clamp .., clamp_le _ h⟩
    exact ih (czStep cfg s e) hstep.1 hstep.2

/-! ## Claim theorems -/

/-- Claim C1: for every sequence of input events applied to a freshly mounted
viewport (with `minScale ≤ maxScale`, as at the call site), the scale stays
within `[minScale, maxScale]`: no zoom-in sequence exceeds `maxScale` and no
zoom-out sequence drops below `minScale`. -/
theorem scale_always_clamped (cfg : CZConfig) (es : List CZEvent)
    (h : cfg.minScale ≤ cfg.maxScale) :
    cfg.minScale ≤ (czRun cfg (initState cfg) es).scale ∧
      (czRun cfg (initState cfg) es).scale ≤ cfg.maxScale :=
  czRun_scale_bounds cfg h es (initState cfg) (le_refl _) h

theorem scale_always_clamped_witness :
    siteConfig.minScale ≤ siteConfig.maxScale ∧
      (siteConfig.minScale ≤ (czRun siteConfig (initState siteConfig)
          [CZEvent.click 0 1 false, CZEvent.wheel (-3), CZEvent.click 0 1 true,
           CZEvent.wheel 2, CZEvent.dblclick, CZEvent.click 0 1 false]).scale ∧
        (czRun siteConfig (initState siteConfig)
          [CZEvent.click 0 1 false, CZEvent.wheel (-3), CZEvent.click 0 1 true,
           CZEvent.wheel 2, CZEvent.dblclick, CZEvent.click 0 1 false]).scale ≤
          siteConfig.maxScale) :=
  ⟨by with_unfolding_all decide,
    scale_always_clamped siteConfig
      [CZEvent.click 0 1 false, CZEvent.wheel (-3), CZEvent.click 0 1 true,
       CZEvent.wheel 2, CZEvent.dblclick, CZEvent.click 0 1 false]
      (by with_unfolding_all decide)⟩

/-- Claim C3: a double-click (dblclick handler), from any prior state, sets
`scale = minScale` and `posX = posY = 0`, unconditionally. -/
theorem dblclick_resets_state (cfg : CZConfig) (s : CZState) :
    (czStep cfg s CZEvent.dblclick).scale = cfg.minScale ∧
      (czStep cfg s CZEvent.dblclick).posX = 0 ∧
      (czStep cfg s CZEvent.dblclick).posY = 0 :=
  ⟨rfl, rfl, rfl⟩

/-- Claim C6: with `minScale=1, maxScale=4, step=0.5` (the call-site config),
six zoom-in clicks from the resting state give scale exactly 4, and a seventh
zoom-in click leaves it at 4 (the candidate 4.5 is clamped). -/
theorem six_clicks_saturate :
    (czRun siteConfig (initState siteConfig)
        (List.replicate 6 (CZEvent.click 0 1 false))).scale = 4 ∧
      (czRun siteConfig (initState siteConfig)
        (List.replicate 7 (CZEvent.click 0 1 false))).scale = 4 := by
  with_unfolding_all decide

/-- Claim C7, counterexample: mounting with `max_scale = 1 ≤ 4 = min_scale`
does not fail with `InvalidConfig` — `render_click_zoom` performs no
validation and renders anyway (html height `760 + 6`). -/
theorem mount_no_validation_cex :
    render_click_zoom "img" 760 (mkRat 1 2) 1 4 =
      Except.ok
        { htmlHeight := 766
          state := initState { heightPx := 760, step := mkRat 1 2, maxScale := 1, minScale := 4 } } ∧
      (1 : ℚ) ≤ 4 :=
  ⟨rfl, by norm_num⟩

/-- Claim C7, amended: mounting performs no configuration validation at all —
even with `maxScale ≤ minScale` (or non-positive height/step) the mount
succeeds, renders, and never produces `InvalidConfig`. -/
theorem mount_never_fails_amended (u : String) (hp : ℤ) (st mx mn : ℚ)
    (_hcfg : mx ≤ mn) :
    render_click_zoom u hp st mx mn =
      Except.ok
        { htmlHeight := hp + 6
          state := initState { heightPx := hp, step := st, maxScale := mx, minScale := mn } } :=
  rfl

lemma twoDecimal_round2 (q : ℚ) : twoDecimal (round2 q) := ⟨round (100 * q), rfl⟩

lemma twoDecimal_clamp {v lo hi : ℚ} (hv : twoDecimal v) (hlo : twoDecimal lo)
    (hhi : twoDecimal hi) : twoDecimal (clamp v lo hi) := by
  rcases clamp_cases v lo hi with h | h | h <;> rw [h] <;> assumption

lemma czRun_twoDecimal (cfg : CZConfig) (hmin : twoDecimal cfg.minScale)
    (hmax : twoDecimal cfg.maxScale) (es : List CZEvent) :
    ∀ s : CZState, twoDecimal s.scale → twoDecimal ((czRun cfg s es).scale) := by
  induction es with
  | nil => exact fun s hs => hs
  | cons e es ih =>
    intro s hs
    rw [czRun_cons]
    refine ih (czStep cfg s e) ?_
    rcases czStep_scale_cases cfg s e with hc | hc | ⟨d, hc⟩
    · rw [hc]; exact hs
    · rw [hc]; exact hmin
    · rw [hc]; exact twoDecimal_clamp (twoDecimal_round2 _) hmin hmax

/-- Claim C10: every zoom step rounds the candidate scale to two decimals
before clamping, so — whatever the step size — after any event sequence the
scale is an integer number of hundredths (no accumulated drift), provided the
configured bounds are themselves two-decimal values. -/
theorem scale_two_decimals (cfg : CZConfig) (es : List CZEvent)
    (hmin : twoDecimal cfg.minScale) (hmax : twoDecimal cfg.maxScale) :
    twoDecimal ((czRun cfg (initState cfg) es).scale) :=
  czRun_twoDecimal cfg hmin hmax es (initState cfg) hmin

theorem scale_two_decimals_witness :
    twoDecimal siteConfig.minScale ∧ twoDecimal siteConfig.maxScale ∧
      twoDecimal ((czRun siteConfig (initState siteConfig)
        [CZEvent.click 0 1 false, CZEvent.wheel 1]).scale) :=
  ⟨⟨100, by with_unfolding_all decide⟩, ⟨400, by with_unfolding_all decide⟩,
    scale_two_decimals siteConfig [CZEvent.click 0 1 false, CZEvent.wheel 1]
      ⟨100, by with_unfolding_all decide⟩ ⟨400, by with_unfolding_all decide⟩⟩

/-- Claim C2, counterexample: the state reached by `c2trace` — zoom in, start
a pan, wheel-zoom back out to `minScale`, then move the still-held pointer —
has `scale = minScale` but a nonzero pan offset, refuting the invariant
"whenever scale equals minScale the offset is (0,0)". -/
theorem pan_at_min_scale_cex :
    (czRun siteConfig (initState siteConfig) c2trace).scale = siteConfig.minScale ∧
      (czRun siteConfig (initState siteConfig) c2trace).posX ≠ 0 := by
  with_unfolding_all decide

/-- Claim C2, amended: at the moment a zoom action (click or wheel) leaves
`scale = minScale`, and on every double-click reset, the offset is set to
(0,0); however, a pan already in progress (button still held) can move the
offset afterwards while scale stays at `minScale`. -/
theorem zoom_reset_offset_amended (cfg : CZConfig) (s : CZState) (sk : Bool)
    (dY : ℤ) (hig : s.ignoreNextClick = false) :
    ((czStep cfg s (CZEvent.click 0 1 sk)).scale = cfg.minScale →
      (czStep cfg s (CZEvent.click 0 1 sk)).posX = 0 ∧
        (czStep cfg s (CZEvent.click 0 1 sk)).posY = 0) ∧
    ((czStep cfg s (CZEvent.wheel dY)).scale = cfg.minScale →
      (czStep cfg s (CZEvent.wheel dY)).posX = 0 ∧
        (czStep cfg s (CZEvent.wheel dY)).posY = 0) ∧
    ((czStep cfg s CZEvent.dblclick).posX = 0 ∧
      (czStep cfg s CZEvent.dblclick).posY = 0) := by
  have hclick : czStep cfg s (CZEvent.click 0 1 sk) =
      zoomBy cfg s (if sk then -cfg.step else cfg.step) := by
    simp [czStep_click, hig]
  refine ⟨?_, ?_, rfl, rfl⟩
  · intro h
    rw [hclick] at h ⊢
    exact zoomBy_min_reset cfg s _ h
  · intro h
    rw [czStep_wheel] at h ⊢
    exact zoomBy_min_reset cfg s _ h

theorem zoom_reset_offset_amended_witness :
    (initState siteConfig).ignoreNextClick = false ∧
      (((czStep siteConfig (initState siteConfig) (CZEvent.click 0 1 true)).scale =
            siteConfig.minScale →
          (czStep siteConfig (initState siteConfig) (CZEvent.click 0 1 true)).posX = 0 ∧
            (czStep siteConfig (initState siteConfig) (CZEvent.click 0 1 true)).posY = 0) ∧
        ((czStep siteConfig (initState siteConfig) (CZEvent.wheel 1)).scale =
            siteConfig.minScale →
          (czStep siteConfig (initState siteConfig) (CZEvent.wheel 1)).posX = 0 ∧
            (czStep siteConfig (initState siteConfig) (CZEvent.wheel 1)).posY = 0) ∧
        ((czStep siteConfig (initState siteConfig) CZEvent.dblclick).posX = 0 ∧
          (czStep siteConfig (initState siteConfig) CZEvent.dblclick).posY = 0)) :=
  ⟨rfl, zoom_reset_offset_amended siteConfig (initState siteConfig) true 1 rfl⟩

/-! ## Exact zoom steps and drag gestures -/

lemma twoDecimal_add {a b : ℚ} (ha : twoDecimal a) (hb : twoDecimal b) :
    twoDecimal (a + b) := by
  obtain ⟨j, rfl⟩ := ha
  obtain ⟨k, rfl⟩ := hb
  exact ⟨j + k, by push_cast; ring⟩

lemma round2_eq_self {q : ℚ} (h : twoDecimal q) : round2 q = q := by
  obtain ⟨k, rfl⟩ := h
  unfold round2
  rw [show (100 : ℚ) * ((k : ℚ) / 100) = (k : ℚ) by field_simp, round_intCast]

/-- When scale and delta sit on the hundredths grid and the candidate lies
inside the clamp range, a zoom step moves the scale by exactly `delta`. -/
lemma zoomBy_exact (cfg : CZConfig) (s : CZState) (d : ℚ)
    (h2s : twoDecimal s.scale) (h2d : twoDecimal d)
    (hmin : cfg.minScale ≤ s.scale + d) (hmax : s.scale + d ≤ cfg.maxScale) :
    (zoomBy cfg s d).scale = s.scale + d := by
  rw [zoomBy_scale, round2_eq_self (twoDecimal_add h2s h2d), clamp_eq_self hmin hmax]

/-- A plain primary-button single click with no pending suppression calls
`zoomBy` with `+step`. -/
lemma click_plain (cfg : CZConfig) (s : CZState) (hig : s.ignoreNextClick = false) :
    czStep cfg s (CZEvent.click 0 1 false) = zoomBy cfg s cfg.step := by
  simp [czStep_click, hig]

/-- A mousedown-move-mouseup with the move past the drag threshold: panning
runs, `movedSinceDown` latches, and the mouseup arms `ignoreNextClick`. -/
lemma drag_over_threshold (cfg : CZConfig) (s : CZState) (x0 y0 x1 y1 : ℤ)
    (hsc : cfg.minScale < s.scale)
    (hmv : DRAG_THRESHOLD < |x1 - x0| ∨ DRAG_THRESHOLD < |y1 - y0|) :
    czRun cfg s [CZEvent.mousedown 0 x0 y0, CZEvent.mousemove x1 y1, CZEvent.mouseup] =
      { s with isPanning := false, movedSinceDown := true, ignoreNextClick := true
               downX := x0, downY := y0
               startX := x0 - s.posX, startY := y0 - s.posY
               posX := x1 - (x0 - s.posX), posY := y1 - (y0 - s.posY) } := by
  have h1 : czStep cfg s (CZEvent.mousedown 0 x0 y0) =
      { s with isPanning := true, movedSinceDown := false
               downX := x0, downY := y0
               startX := x0 - s.posX, startY := y0 - s.posY } := by
    rw [czStep_mousedown, if_neg (by simp), if_neg (not_le.mpr hsc)]
  have h2 : czStep cfg
      { s with isPanning := true, movedSinceDown := false
               downX := x0, downY := y0
               startX := x0 - s.posX, startY := y0 - s.posY }
      (CZEvent.mousemove x1 y1) =
      { s with isPanning := true, movedSinceDown := true
               downX := x0, downY := y0
               startX := x0 - s.posX, startY := y0 - s.posY
               posX := x1 - (x0 - s.posX), posY := y1 - (y0 - s.posY) } := by
    rw [czStep_mousemove]
    unfold moveHandler
    rw [if_neg (by simp), if_pos ⟨rfl, hmv⟩]
  have h3 : czStep cfg
      { s with isPanning := true, movedSinceDown := true
               downX := x0, downY := y0
               startX := x0 - s.posX, startY := y0 - s.posY
               posX := x1 - (x0 - s.posX), posY := y1 - (y0 - s.posY) }
      CZEvent.mouseup =
      { s with isPanning := false, movedSinceDown := true, ignoreNextClick := true
               downX := x0, downY := y0
               startX := x0 - s.posX, startY := y0 - s.posY
               posX := x1 - (x0 - s.posX), posY := y1 - (y0 - s.posY) } := by
    rw [czStep_mouseup]
    unfold upHandler
    rw [if_neg (by simp), if_pos rfl]
  show czStep cfg (czStep cfg (czStep cfg s (CZEvent.mousedown 0 x0 y0))
      (CZEvent.mousemove x1 y1)) CZEvent.mouseup = _
  rw [h1, h2, h3]

/-- With no pan in progress, mousemove events are no-ops. -/
lemma moves_nopan (cfg : CZConfig) :
    ∀ (ps : List (ℤ × ℤ)) (s : CZState), s.isPanning = false →
      czRun cfg s (ps.map fun p => CZEvent.mousemove p.1 p.2) = s := by
  intro ps
  induction ps with
  | nil => exact fun s _ => rfl
  | cons p t ih =>
    intro s hp
    rw [List.map_cons, czRun_cons, czStep_mousemove]
    unfold moveHandler
    rw [if_pos hp]
    exact ih s hp

/-- Moves that all stay within the drag threshold of the press point change
only the offset: `movedSinceDown` never latches. -/
lemma moves_subthreshold (cfg : CZConfig) :
    ∀ (ps : List (ℤ × ℤ)) (s : CZState), s.isPanning = true →
      s.movedSinceDown = false →
      (∀ p ∈ ps, |p.1 - s.downX| ≤ DRAG_THRESHOLD ∧ |p.2 - s.downY| ≤ DRAG_THRESHOLD) →
      ∃ px py : ℤ,
        czRun cfg s (ps.map fun p => CZEvent.mousemove p.1 p.2) =
          { s with posX := px, posY := py } := by
  intro ps
  induction ps with
  | nil => exact fun s _ _ _ => ⟨s.posX, s.posY, rfl⟩
  | cons p t ih =>
    intro s hp hm h
    have hple := h p (List.mem_cons_self ..)
    rw [List.map_cons, czRun_cons, czStep_mousemove]
    unfold moveHandler
    rw [if_neg (by simp [hp]),
        if_neg (fun hc => hc.2.elim
          (fun hb => absurd hb (not_lt.mpr hple.1))
          (fun hb => absurd hb (not_lt.mpr hple.2)))]
    obtain ⟨px, py, heq⟩ :=
      ih { s with posX := p.1 - s.startX, posY := p.2 - s.startY } hp hm
        (fun q hq => h q (List.mem_cons_of_mem _ hq))
    exact ⟨px, py, heq⟩

/-- Releasing the button after a below-threshold gesture just stops panning;
the click that follows is dispatched on the unsuppressed state. -/
lemma up_click_after_still (cfg : CZConfig) (s : CZState)
    (hpanT : s.isPanning = true) (hm : s.movedSinceDown = false)
    (hig : s.ignoreNextClick = false) :
    czRun cfg s [CZEvent.mouseup, CZEvent.click 0 1 false] =
      zoomBy cfg { s with isPanning := false } cfg.step := by
  rw [czRun_cons, czStep_mouseup]
  unfold upHandler
  rw [if_neg (by simp [hpanT]), if_neg (by simp [hm])]
  show czStep cfg { s with isPanning := false } (CZEvent.click 0 1 false) = _
  exact click_plain cfg _ hig

/-- Claim C4, counterexample: a drag whose displacement is exactly 5 px — "at
least 5 pixels" in the claim's words — does not arm suppression, because the
code tests strictly `> DRAG_THRESHOLD`; the trailing click then does zoom
(scale 1.5 → 2.0). -/
theorem threshold_boundary_cex :
    (czRun siteConfig (initState siteConfig)
        [CZEvent.click 0 1 false, CZEvent.mousedown 0 0 0,
         CZEvent.mousemove 5 0, CZEvent.mouseup]).ignoreNextClick = false ∧
      (czRun siteConfig (initState siteConfig)
        [CZEvent.click 0 1 false, CZEvent.mousedown 0 0 0,
         CZEvent.mousemove 5 0, CZEvent.mouseup]).scale = 3 / 2 ∧
      (czRun siteConfig (initState siteConfig)
        [CZEvent.click 0 1 false, CZEvent.mousedown 0 0 0,
         CZEvent.mousemove 5 0, CZEvent.mouseup, CZEvent.click 0 1 false]).scale = 2 := by
  with_unfolding_all decide

/-- Claim C4, amended: after a drag of MORE than 5 px (per axis, the code's
strict threshold) ends in a mouseup, `ignoreNextClick` is armed and the scale
is unchanged; a trailing click inside the suppression window changes no scale
and clears the flag; the timer also clears the flag; and a click arriving
after the timer fired zooms by exactly one step. -/
theorem drag_suppression_amended (cfg : CZConfig) (s : CZState) (x0 y0 x1 y1 : ℤ)
    (hsc : cfg.minScale < s.scale)
    (hmv : DRAG_THRESHOLD < |x1 - x0| ∨ DRAG_THRESHOLD < |y1 - y0|)
    (h2s : twoDecimal s.scale) (h2t : twoDecimal cfg.step)
    (hstep : 0 < cfg.step) (hmax : s.scale + cfg.step ≤ cfg.maxScale) :
    (czRun cfg s [CZEvent.mousedown 0 x0 y0, CZEvent.mousemove x1 y1,
        CZEvent.mouseup]).ignoreNextClick = true ∧
    (czRun cfg s [CZEvent.mousedown 0 x0 y0, CZEvent.mousemove x1 y1,
        CZEvent.mouseup]).scale = s.scale ∧
    (czStep cfg (czRun cfg s [CZEvent.mousedown 0 x0 y0, CZEvent.mousemove x1 y1,
        CZEvent.mouseup]) (CZEvent.click 0 1 false)).scale = s.scale ∧
    (czStep cfg (czRun cfg s [CZEvent.mousedown 0 x0 y0, CZEvent.mousemove x1 y1,
        CZEvent.mouseup]) (CZEvent.click 0 1 false)).ignoreNextClick = false ∧
    (czStep cfg (czRun cfg s [CZEvent.mousedown 0 x0 y0, CZEvent.mousemove x1 y1,
        CZEvent.mouseup]) CZEvent.timerExpire).ignoreNextClick = false ∧
    (czStep cfg (czStep cfg (czRun cfg s [CZEvent.mousedown 0 x0 y0,
        CZEvent.mousemove x1 y1, CZEvent.mouseup]) CZEvent.timerExpire)
      (CZEvent.click 0 1 false)).scale = s.scale + cfg.step := by
  have hfin := drag_over_threshold cfg s x0 y0 x1 y1 hsc hmv
  rw [hfin]
  have hminstep : cfg.minScale ≤ s.scale + cfg.step :=
    hsc.le.trans (le_add_of_nonneg_right hstep.le)
  refine ⟨rfl, rfl, ?_, ?_, rfl, ?_⟩
  · rw [czStep_click, if_pos rfl]
  · rw [czStep_click, if_pos rfl]
  · rw [czStep_timer]
    rw [show czStep cfg _ (CZEvent.click 0 1 false) = zoomBy cfg
        { s with isPanning := false, movedSinceDown := true, ignoreNextClick := false
                 downX := x0, downY := y0
                 startX := x0 - s.posX, startY := y0 - s.posY
                 posX := x1 - (x0 - s.posX), posY := y1 - (y0 - s.posY) } cfg.step
      from click_plain cfg _ rfl]
    exact zoomBy_exact cfg _ cfg.step h2s h2t hminstep hmax

theorem drag_suppression_amended_witness :
    (czRun siteConfig (⟨mkRat 3 2, 0, 0, false, 0, 0, 0, 0, false, false⟩ : CZState)
        [CZEvent.mousedown 0 0 0, CZEvent.mousemove 6 0,
         CZEvent.mouseup]).ignoreNextClick = true ∧
    (czRun siteConfig (⟨mkRat 3 2, 0, 0, false, 0, 0, 0, 0, false, false⟩ : CZState)
        [CZEvent.mousedown 0 0 0, CZEvent.mousemove 6 0,
         CZEvent.mouseup]).scale =
      (⟨mkRat 3 2, 0, 0, false, 0, 0, 0, 0, false, false⟩ : CZState).scale ∧
    (czStep siteConfig (czRun siteConfig
        (⟨mkRat 3 2, 0, 0, false, 0, 0, 0, 0, false, false⟩ : CZState)
        [CZEvent.mousedown 0 0 0, CZEvent.mousemove 6 0, CZEvent.mouseup])
      (CZEvent.click 0 1 false)).scale =
      (⟨mkRat 3 2, 0, 0, false, 0, 0, 0, 0, false, false⟩ : CZState).scale ∧
    (czStep siteConfig (czRun siteConfig
        (⟨mkRat 3 2, 0, 0, false, 0, 0, 0, 0, false, false⟩ : CZState)
        [CZEvent.mousedown 0 0 0, CZEvent.mousemove 6 0, CZEvent.mouseup])
      (CZEvent.click 0 1 false)).ignoreNextClick = false ∧
    (czStep siteConfig (czRun siteConfig
        (⟨mkRat 3 2, 0, 0, false, 0, 0, 0, 0, false, false⟩ : CZState)
        [CZEvent.mousedown 0 0 0, CZEvent.mousemove 6 0, CZEvent.mouseup])
      CZEvent.timerExpire).ignoreNextClick = false ∧
    (czStep siteConfig (czStep siteConfig (czRun siteConfig
        (⟨mkRat 3 2, 0, 0, false, 0, 0, 0, 0, false, false⟩ : CZState)
        [CZEvent.mousedown 0 0 0, CZEvent.mousemove 6 0, CZEvent.mouseup])
      CZEvent.timerExpire) (CZEvent.click 0 1 false)).scale =
      (⟨mkRat 3 2, 0, 0, false, 0, 0, 0, 0, false, false⟩ : CZState).scale +
        siteConfig.step :=
  drag_suppression_amended siteConfig
    (⟨mkRat 3 2, 0, 0, false, 0, 0, 0, 0, false, false⟩ : CZState) 0 0 6 0
    (by with_unfolding_all decide) (by decide)
    ⟨150, by with_unfolding_all decide⟩ ⟨50, by with_unfolding_all decide⟩
    (by with_unfolding_all decide) (by with_unfolding_all decide)

/-- Claim C5: a press-move-release gesture whose every move stays strictly
under 5 px (per axis) of the press point arms no suppression, and the click
that follows zooms by exactly one step. -/
theorem subthreshold_drag_click_zooms (cfg : CZConfig) (s : CZState)
    (x0 y0 : ℤ) (ps : List (ℤ × ℤ))
    (hpan : s.isPanning = false) (hig : s.ignoreNextClick = false)
    (hmoves : ∀ p ∈ ps, |p.1 - x0| < DRAG_THRESHOLD ∧ |p.2 - y0| < DRAG_THRESHOLD)
    (h2s : twoDecimal s.scale) (h2t : twoDecimal cfg.step)
    (hmin : cfg.minScale ≤ s.scale) (hstep : 0 < cfg.step)
    (hmax : s.scale + cfg.step ≤ cfg.maxScale) :
    (czRun cfg s (CZEvent.mousedown 0 x0 y0 ::
        ((ps.map fun p => CZEvent.mousemove p.1 p.2) ++
          [CZEvent.mouseup, CZEvent.click 0 1 false]))).ignoreNextClick = false ∧
      (czRun cfg s (CZEvent.mousedown 0 x0 y0 ::
        ((ps.map fun p => CZEvent.mousemove p.1 p.2) ++
          [CZEvent.mouseup, CZEvent.click 0 1 false]))).scale = s.scale + cfg.step := by
  have hminstep : cfg.minScale ≤ s.scale + cfg.step :=
    hmin.trans (le_add_of_nonneg_right hstep.le)
  rw [czRun_cons, czRun_append]
  rcases le_or_lt s.scale cfg.minScale with hle | hlt
  · rw [czStep_mousedown, if_neg (by simp), if_pos hle, moves_nopan cfg ps s hpan,
        czRun_cons, czStep_mouseup]
    unfold upHandler
    rw [if_pos hpan]
    show ((czRun cfg s [CZEvent.click 0 1 false]).ignoreNextClick = false) ∧ _
    rw [show czRun cfg s [CZEvent.click 0 1 false] =
        czStep cfg s (CZEvent.click 0 1 false) from rfl, click_plain cfg s hig]
    exact ⟨(zoomBy_ignore ..).trans hig,
      zoomBy_exact cfg s cfg.step h2s h2t hminstep hmax⟩
  · rw [czStep_mousedown, if_neg (by simp), if_neg (not_le.mpr hlt)]
    obtain ⟨px, py, hm⟩ := moves_subthreshold cfg ps
      { s with isPanning := true, movedSinceDown := false
               downX := x0, downY := y0
               startX := x0 - s.posX, startY := y0 - s.posY }
      rfl rfl (fun p hp => ⟨(hmoves p hp).1.le, (hmoves p hp).2.le⟩)
    rw [hm]
    show (czRun cfg
        { s with isPanning := true, movedSinceDown := false
                 downX := x0, downY := y0
                 startX := x0 - s.posX, startY := y0 - s.posY
                 posX := px, posY := py }
        [CZEvent.mouseup, CZEvent.click 0 1 false]).ignoreNextClick = false ∧
      (czRun cfg
        { s with isPanning := true, movedSinceDown := false
                 downX := x0, downY := y0
                 startX := x0 - s.posX, startY := y0 - s.posY
                 posX := px, posY := py }
        [CZEvent.mouseup, CZEvent.click 0 1 false]).scale = s.scale + cfg.step
    rw [up_click_after_still cfg
      { s with isPanning := true, movedSinceDown := false
               downX := x0, downY := y0
               startX := x0 - s.posX, startY := y0 - s.posY
               posX := px, posY := py } rfl rfl hig]
    exact ⟨(zoomBy_ignore ..).trans hig,
      zoomBy_exact cfg _ cfg.step h2s h2t hminstep hmax⟩

theorem subthreshold_drag_click_zooms_witness :
    (czRun siteConfig (⟨2, 0, 0, false, 0, 0, 0, 0, false, false⟩ : CZState)
        (CZEvent.mousedown 0 0 0 ::
          (([((3 : ℤ), (0 : ℤ)), (4, 2)].map fun p => CZEvent.mousemove p.1 p.2) ++
            [CZEvent.mouseup, CZEvent.click 0 1 false]))).ignoreNextClick = false ∧
      (czRun siteConfig (⟨2, 0, 0, false, 0, 0, 0, 0, false, false⟩ : CZState)
        (CZEvent.mousedown 0 0 0 ::
          (([((3 : ℤ), (0 : ℤ)), (4, 2)].map fun p => CZEvent.mousemove p.1 p.2) ++
            [CZEvent.mouseup, CZEvent.click 0 1 false]))).scale =
        (⟨2, 0, 0, false, 0, 0, 0, 0, false, false⟩ : CZState).scale +
          siteConfig.step :=
  subthreshold_drag_click_zooms siteConfig
    (⟨2, 0, 0, false, 0, 0, 0, 0, false, false⟩ : CZState) 0 0
    [((3 : ℤ), (0 : ℤ)), (4, 2)] rfl rfl (by decide)
    ⟨200, by with_unfolding_all decide⟩ ⟨50, by with_unfolding_all decide⟩
    (by with_unfolding_all decide) (by with_unfolding_all decide)
    (by with_unfolding_all decide)

/-- Shared move-after-press computation for claim C9. -/
lemma move_after_down (s : CZState) (x0 y0 x1 y1 : ℤ)
    (hsub : |x1 - x0| ≤ DRAG_THRESHOLD ∧ |y1 - y0| ≤ DRAG_THRESHOLD) :
    moveHandler
      { s with isPanning := true, movedSinceDown := false
               downX := x0, downY := y0
               startX := x0 - s.posX, startY := y0 - s.posY } x1 y1 =
      { s with isPanning := true, movedSinceDown := false
               downX := x0, downY := y0
               startX := x0 - s.posX, startY := y0 - s.posY
               posX := x1 - (x0 - s.posX), posY := y1 - (y0 - s.posY) } := by
  unfold moveHandler
  rw [if_neg (by simp),
      if_neg (fun hc => hc.2.elim
        (fun hb => absurd hb (not_lt.mpr hsub.1))
        (fun hb => absurd hb (not_lt.mpr hsub.2)))]

/-- Claim C9: during a drag started while scale > minScale, the very first
move event already shifts the offset by the pointer delta — even when the
displacement stays at or below the 5 px threshold, in which case
`movedSinceDown` stays unset (the threshold only governs click suppression,
not panning). Holds for the mouse and the touch handlers alike. -/
theorem pan_tracks_every_move (cfg : CZConfig) (s : CZState) (x0 y0 x1 y1 : ℤ)
    (hsc : cfg.minScale < s.scale)
    (hsub : |x1 - x0| ≤ DRAG_THRESHOLD ∧ |y1 - y0| ≤ DRAG_THRESHOLD) :
    ((czStep cfg (czStep cfg s (CZEvent.mousedown 0 x0 y0))
        (CZEvent.mousemove x1 y1)).posX = s.posX + (x1 - x0) ∧
      (czStep cfg (czStep cfg s (CZEvent.mousedown 0 x0 y0))
        (CZEvent.mousemove x1 y1)).posY = s.posY + (y1 - y0) ∧
      (czStep cfg (czStep cfg s (CZEvent.mousedown 0 x0 y0))
        (CZEvent.mousemove x1 y1)).movedSinceDown = false) ∧
    ((czStep cfg (czStep cfg s (CZEvent.touchstart x0 y0))
        (CZEvent.touchmove x1 y1)).posX = s.posX + (x1 - x0) ∧
      (czStep cfg (czStep cfg s (CZEvent.touchstart x0 y0))
        (CZEvent.touchmove x1 y1)).posY = s.posY + (y1 - y0) ∧
      (czStep cfg (czStep cfg s (CZEvent.touchstart x0 y0))
        (CZEvent.touchmove x1 y1)).movedSinceDown = false) := by
  have hdown : czStep cfg s (CZEvent.mousedown 0 x0 y0) =
      { s with isPanning := true, movedSinceDown := false
               downX := x0, downY := y0
               startX := x0 - s.posX, startY := y0 - s.posY } := by
    rw [czStep_mousedown, if_neg (by simp), if_neg (not_le.mpr hsc)]
  have htouch : czStep cfg s (CZEvent.touchstart x0 y0) =
      { s with isPanning := true, movedSinceDown := false
               downX := x0, downY := y0
               startX := x0 - s.posX, startY := y0 - s.posY } := by
    rw [czStep_touchstart, if_neg (not_le.mpr hsc)]
  rw [hdown, htouch, czStep_mousemove, czStep_touchmove,
      move_after_down s x0 y0 x1 y1 hsub]
  refine ⟨⟨?_, ?_, rfl⟩, ?_, ?_, rfl⟩
  · show x1 - (x0 - s.posX) = s.posX + (x1 - x0)
    omega
  · show y1 - (y0 - s.posY) = s.posY + (y1 - y0)
    omega
  · show x1 - (x0 - s.posX) = s.posX + (x1 - x0)
    omega
  · show y1 - (y0 - s.posY) = s.posY + (y1 - y0)
    omega

theorem pan_tracks_every_move_witness :
    ((czStep siteConfig (czStep siteConfig
        (⟨2, 7, 8, false, 0, 0, 0, 0, false, false⟩ : CZState)
        (CZEvent.mousedown 0 10 10)) (CZEvent.mousemove 12 9)).posX =
        (⟨2, 7, 8, false, 0, 0, 0, 0, false, false⟩ : CZState).posX + (12 - 10) ∧
      (czStep siteConfig (czStep siteConfig
        (⟨2, 7, 8, false, 0, 0, 0, 0, false, false⟩ : CZState)
        (CZEvent.mousedown 0 10 10)) (CZEvent.mousemove 12 9)).posY =
        (⟨2, 7, 8, false, 0, 0, 0, 0, false, false⟩ : CZState).posY + (9 - 10) ∧
      (czStep siteConfig (czStep siteConfig
        (⟨2, 7, 8, false, 0, 0, 0, 0, false, false⟩ : CZState)
        (CZEvent.mousedown 0 10 10)) (CZEvent.mousemove 12 9)).movedSinceDown = false) ∧
    ((czStep siteConfig (czStep siteConfig
        (⟨2, 7, 8, false, 0, 0, 0, 0, false, false⟩ : CZState)
        (CZEvent.touchstart 10 10)) (CZEvent.touchmove 12 9)).posX =
        (⟨2, 7, 8, false, 0, 0, 0, 0, false, false⟩ : CZState).posX + (12 - 10) ∧
      (czStep siteConfig (czStep siteConfig
        (⟨2, 7, 8, false, 0, 0, 0, 0, false, false⟩ : CZState)
        (CZEvent.touchstart 10 10)) (CZEvent.touchmove 12 9)).posY =
        (⟨2, 7, 8, false, 0, 0, 0, 0, false, false⟩ : CZState).posY + (9 - 10) ∧
      (czStep siteConfig (czStep siteConfig
        (⟨2, 7, 8, false, 0, 0, 0, 0, false, false⟩ : CZState)
        (CZEvent.touchstart 10 10)) (CZEvent.touchmove 12 9)).movedSinceDown = false) :=
  pan_tracks_every_move siteConfig
    (⟨2, 7, 8, false, 0, 0, 0, 0, false, false⟩ : CZState) 10 10 12 9
    (by with_unfolding_all decide) (by decide)

/-! ## Record store -/

lemma updRow_of_ne (rid : ℤ) (txt : String) (r : Registro)
    (h : r.redacao_id ≠ rid) : updRow rid txt r = r := by
  simp [updRow, h]

lemma updRow_redacao (rid : ℤ) (txt : String) (r : Registro) :
    (updRow rid txt r).redacao_id = r.redacao_id := by
  unfold updRow
  split_ifs <;> rfl

lemma map_updRow_id (rid : ℤ) (txt : String) :
    ∀ l : List Registro, (∀ r ∈ l, r.redacao_id ≠ rid) →
      l.map (updRow rid txt) = l := by
  intro l
  induction l with
  | nil => exact fun _ => rfl
  | cons r t ih =>
    intro h
    rw [List.map_cons, updRow_of_ne _ _ _ (h r (List.mem_cons_self ..)),
        ih fun x hx => h x (List.mem_cons_of_mem _ hx)]

lemma filter_rid_nil (rid : ℤ) :
    ∀ l : List Registro, (∀ r ∈ l, r.redacao_id ≠ rid) →
      l.filter (fun r => r.redacao_id = rid) = [] := by
  intro l
  induction l with
  | nil => exact fun _ => rfl
  | cons r t ih =>
    intro h
    rw [List.filter_cons,
        if_neg (by simp [h r (List.mem_cons_self ..)]),
        ih fun x hx => h x (List.mem_cons_of_mem _ hx)]

/-- Claim C8: `salvar_texto` (the record store's upsert) leaves every record
with the given id holding the new text and status 1 (Complete); some record
with that id exists afterwards; and when no record with the id existed, a row
with the given text, status 1 and the given image reference (Python's
`imagem_url or ""`) is appended. -/
theorem salvar_texto_upsert (db : List Registro) (rid : ℤ) (txt : String)
    (img : Option String) :
    (∀ r ∈ salvar_texto db rid txt img, r.redacao_id = rid →
        r.status = 1 ∧ r.texto_digitado = txt) ∧
      (∃ r ∈ salvar_texto db rid txt img, r.redacao_id = rid) ∧
      ((∀ r ∈ db, r.redacao_id ≠ rid) →
        salvar_texto db rid txt img =
          db ++ [{ redacao_id := rid, texto_digitado := txt, status := 1
                   arquivo_nome_armazenamento := pyOrEmpty img }]) := by
  refine ⟨?_, ?_, ?_⟩
  · intro r hr hrid
    unfold salvar_texto at hr
    have hmem : r ∈ db.map (updRow rid txt) ∨
        r = { redacao_id := rid, texto_digitado := txt, status := 1
              arquivo_nome_armazenamento := pyOrEmpty img } := by
      split_ifs at hr with hcnt
      · rcases List.mem_append.mp hr with hm | hm
        · exact Or.inl hm
        · exact Or.inr (List.mem_singleton.mp hm)
      · exact Or.inl hr
    rcases hmem with hm | hm
    · obtain ⟨r0, hr0, rfl⟩ := List.mem_map.mp hm
      by_cases h0 : r0.redacao_id = rid
      · simp [updRow, h0]
      · rw [updRow_of_ne _ _ _ h0] at hrid
        exact absurd hrid h0
    · rw [hm]
      exact ⟨rfl, rfl⟩
  · unfold salvar_texto
    split_ifs with hcnt
    · exact ⟨_, List.mem_append.mpr (Or.inr (List.mem_singleton_self _)), rfl⟩
    · have hne : db.filter (fun r => r.redacao_id = rid) ≠ [] := by
        intro h0
        exact hcnt (by rw [h0]; rfl)
      obtain ⟨r0, hr0⟩ := List.exists_mem_of_ne_nil _ hne
      have hf := List.mem_filter.mp hr0
      refine ⟨updRow rid txt r0, List.mem_map_of_mem _ hf.1, ?_⟩
      rw [updRow_redacao]
      exact of_decide_eq_true hf.2
  · intro hnone
    unfold salvar_texto
    rw [filter_rid_nil rid db hnone, map_updRow_id rid txt db hnone]
    rfl

theorem salvar_texto_upsert_witness :
    salvar_texto [] 7 "abc" (some "pic") =
      [] ++ [{ redacao_id := 7, texto_digitado := "abc", status := 1
               arquivo_nome_armazenamento := pyOrEmpty (some "pic") }] :=
  (salvar_texto_upsert [] 7 "abc" (some "pic")).2.2 (by simp)

theorem mount_never_fails_amended_witness :
    render_click_zoom "img" (-5) 0 1 2 =
      Except.ok
        { htmlHeight := -5 + 6
          state := initState { heightPx := -5, step := 0, maxScale := 1, minScale := 2 } } :=
  mount_never_fails_amended "img" (-5) 0 1 2 (by norm_num)

end CorrigeAI
